import Mathlib

/-!
Shallow embedding of the Productivity-Launcher start-page application
(single React/TypeScript source file). The embedding covers the parts of
the program the specification talks about: the tile data model, the
persistent-store wrapper around browser `localStorage`, the theme
resolver (including the sticky "surprise" palette), the search filter,
the theme-toggle cycle, and the tile CRUD operations of the manage
modal (add, move/reorder, edit-save).

Modelling conventions:
- `localStorage` is a partial map `String → Option String`; writing a key
  produces an updated map.
- `JSON.parse` / `JSON.stringify` are abstract `parse : String → Option α`
  and `stringify : α → String` parameters; a parse exception becomes
  `none`.
- `Math.random()`-derived values (the surprise palette index, the id
  suffix of a new tile) become explicit parameters.
- JavaScript string falsiness (`s ? … : …`) is modelled as the test
  `s ≠ ""` on present strings; `undefined`/`null` is `Option.none`.
- `String.prototype.toLowerCase` is modelled character-wise with
  `Char.toLower` (the sources only exercise ASCII data);
  `String.prototype.trim` and `String.prototype.split` are modelled by
  the character-list functions `jsTrim` and `jsSplitComma` below, which
  agree with the JavaScript semantics on the program's data.
-/

/-- The `Tile` record of the source: `subtitle` and `tags` are optional
fields (`subtitle?: string`, `tags?: string[]`); `icon` is a key into the
fixed icon registry, kept as a string here since no claim depends on the
icon set. -/
structure Tile where
  id : String
  title : String
  subtitle : Option String
  url : String
  icon : String
  color : String
  tags : Option (List String)
deriving DecidableEq, Repr

/-- The theme selection, `type ThemeName = "light" | "dark" | "grafit" | "surprise"`. -/
inductive ThemeName where
  | light
  | dark
  | grafit
  | surprise
deriving DecidableEq, Repr

/-- The six CSS custom-property values a resolved theme carries. -/
structure ThemeTokens where
  bg : String
  fg : String
  card : String
  muted : String
  accent : String
  ring : String
deriving DecidableEq, Repr

/-- The `ocean` entry of `SURPRISE_PALETTES`. -/
def oceanTokens : ThemeTokens :=
  { bg := "#0b1220", fg := "#e7f5ff", card := "#0f1a2b",
    muted := "#8fb7e1", accent := "#3ba3ff", ring := "#79b8ff" }

/-- The `forest` entry of `SURPRISE_PALETTES`. -/
def forestTokens : ThemeTokens :=
  { bg := "#0f1512", fg := "#e8ffef", card := "#112019",
    muted := "#86c19b", accent := "#2fd477", ring := "#7ce9a6" }

/-- The `sunset` entry of `SURPRISE_PALETTES`. -/
def sunsetTokens : ThemeTokens :=
  { bg := "#1b1312", fg := "#fff0e6", card := "#221817",
    muted := "#ffb199", accent := "#ff7a59", ring := "#ffbfa8" }

/-- The fixed `SURPRISE_PALETTES` record as a lookup: a JS record indexed by a string,
returning `undefined` (`none`) for unknown keys. -/
def SURPRISE_PALETTES : String → Option ThemeTokens := fun name =>
  if name = "ocean" then some oceanTokens
  else if name = "forest" then some forestTokens
  else if name = "sunset" then some sunsetTokens
  else none

/-- The palette names, `Object.keys(SURPRISE_PALETTES)` in insertion order. -/
def surpriseNames : List String := ["ocean", "forest", "sunset"]

/-- The fixed `THEMES` record for the three non-surprise themes; the
record has no `surprise` entry. -/
def THEMES : ThemeName → Option ThemeTokens
  | .light => some { bg := "#f7f7fb", fg := "#0f1222", card := "#ffffff",
                     muted := "#6b7280", accent := "#6366f1", ring := "#a5b4fc" }
  | .dark => some { bg := "#0c0f16", fg := "#e5e7eb", card := "#111827",
                    muted := "#9ca3af", accent := "#22d3ee", ring := "#67e8f9" }
  | .grafit => some { bg := "#0e0e10", fg := "#e8e8ea", card := "#151518",
                      muted := "#9a9aa2", accent := "#c0c0c8", ring := "#d6d6de" }
  | .surprise => none

/-- The durable key of the sticky surprise palette name. -/
def surpriseKey : String := "launcher.surpriseName"

/-- The resolver `applyTheme(theme)`: resolves a theme selection to tokens and updates
`localStorage`. The store is the `localStorage` map; `r` stands for the
`Math.floor(Math.random() * names.length)` draw, reduced modulo the
palette count so any natural models a draw. The CSS-variable writes at
the end of the source function are the `Apply` side effect and carry no
data, so the embedding returns the resolved tokens (`none` models the
`undefined` a lookup of a missing record entry would give) together with
the updated store. -/
def applyTheme (store : String → Option String) (theme : ThemeName)
    (r : Nat) : Option ThemeTokens × (String → Option String) :=
  match theme with
  | .surprise =>
    let savedSurprise := store surpriseKey
    let randomPick : String :=
      surpriseNames.get ⟨r % surpriseNames.length, Nat.mod_lt _ (by decide)⟩
    let pick : String :=
      match savedSurprise with
      | some s => if (SURPRISE_PALETTES s).isSome then s else randomPick
      | none => randomPick
    (SURPRISE_PALETTES pick,
     fun k => if k = surpriseKey then some pick else store k)
  | t => (THEMES t, store)

/-- The initializer of `usePersistentState(key, initial)`: read the slot,
return `initial` when the raw value is absent or falsy (the empty
string), otherwise the parsed value, falling back to `initial` when
parsing throws. -/
def usePersistentStateInit {α : Type} (store : String → Option String)
    (key : String) (initial : α) (parse : String → Option α) : α :=
  match store key with
  | none => initial
  | some raw =>
    if raw = "" then initial
    else
      match parse raw with
      | some v => v
      | none => initial

/-- The write effect of `usePersistentState`: serialize the current value
into the slot (the successful-write case; a throwing `setItem` is
swallowed and leaves the store unchanged). -/
def usePersistentStateWrite {α : Type} (store : String → Option String)
    (key : String) (value : α) (stringify : α → String) :
    String → Option String :=
  fun k => if k = key then some (stringify value) else store k

/-- Character-wise lowercasing, `s.toLowerCase()` on the ASCII data the
program handles. -/
def jsToLower (s : String) : String := ⟨s.data.map Char.toLower⟩

/-- The ASCII whitespace characters `String.prototype.trim` strips. -/
def jsIsWhitespace (c : Char) : Bool :=
  c = ' ' || c = '\t' || c = '\n' || c = '\r' ||
  c = (Char.ofNat 0x0b) || c = (Char.ofNat 0x0c)

/-- Strip leading and trailing whitespace, `s.trim()`. -/
def jsTrim (s : String) : String :=
  ⟨((s.data.dropWhile jsIsWhitespace).reverse.dropWhile jsIsWhitespace).reverse⟩

/-- Split a character list at every comma; like `s.split(",")`, the
empty input gives one empty segment and separators are not merged. -/
def splitCommaAux : List Char → List (List Char)
  | [] => [[]]
  | c :: rest =>
    if c = ',' then [] :: splitCommaAux rest
    else
      match splitCommaAux rest with
      | [] => [[c]]
      | g :: gs => (c :: g) :: gs

/-- Comma split, `s.split(",")` of JavaScript strings. -/
def jsSplitComma (s : String) : List String :=
  (splitCommaAux s.data).map (fun l => ⟨l⟩)

/-- Substring test on character lists: the needle occurs at the head or
somewhere in the tail. -/
def listIncludes (needle : List Char) : List Char → Bool
  | [] => needle.isEmpty
  | c :: rest => needle.isPrefixOf (c :: rest) || listIncludes needle rest

/-- Substring test, `s.includes(sub)` of JavaScript strings. -/
def jsIncludes (s sub : String) : Bool := listIncludes sub.data s.data

/-- The candidate strings of a tile for search matching:
`[t.title, t.subtitle, ...(t.tags || [])].filter(Boolean)` — a missing
subtitle and empty strings are dropped. -/
def tileStrings (t : Tile) : List String :=
  (([t.title] ++ t.subtitle.toList ++ t.tags.getD []).filter (fun s => s ≠ ""))

/-- Candidate match, `(s) => s.toLowerCase().includes(q)`, `q` already
lowercased by the caller. -/
def tileMatches (q : String) (t : Tile) : Bool :=
  (tileStrings t).any (fun s => jsIncludes (jsToLower s) q)

/-- The `filtered` memo: a blank query returns the tiles unchanged,
otherwise the tiles are filtered by the case-insensitive substring
match. -/
def filtered (tiles : List Tile) (query : String) : List Tile :=
  if jsTrim query = "" then tiles
  else tiles.filter (tileMatches (jsToLower query))

/-- The claim-side matching predicate, written from the specification:
the title, the subtitle, or some tag contains the query as a
case-insensitive substring. -/
def specMatches (query : String) (t : Tile) : Bool :=
  jsIncludes (jsToLower t.title) (jsToLower query) ||
  (match t.subtitle with
   | some s => jsIncludes (jsToLower s) (jsToLower query)
   | none => false) ||
  (t.tags.getD []).any (fun s => jsIncludes (jsToLower s) (jsToLower query))

/-- The theme-cycle step shared by `ThemeToggle` and the `T` key handler:
`prev === "light" ? "dark" : prev === "dark" ? "grafit" :
prev === "grafit" ? "surprise" : "light"`. -/
def nextTheme (prev : ThemeName) : ThemeName :=
  if prev = .light then .dark
  else if prev = .dark then .grafit
  else if prev = .grafit then .surprise
  else .light

/-- Strip Unicode combining marks, `replace(/[̀-ͯ]/g, "")`. -/
def stripCombining (s : List Char) : List Char :=
  s.filter (fun c => ¬ (0x300 ≤ c.toNat ∧ c.toNat ≤ 0x36f))

/-- The characters a slug keeps, `[a-z0-9]`. -/
def isSlugChar (c : Char) : Bool :=
  (('a' ≤ c && c ≤ 'z') || ('0' ≤ c && c ≤ '9'))

/-- Collapse every maximal run of non-slug characters into a single dash,
`replace(/[^a-z0-9]+/g, "-")`; the flag records whether the previous
character belonged to such a run. -/
def collapseNonSlug : Bool → List Char → List Char
  | _, [] => []
  | inRun, c :: rest =>
    if isSlugChar c then c :: collapseNonSlug false rest
    else if inRun then collapseNonSlug true rest
    else '-' :: collapseNonSlug true rest

/-- Remove leading and trailing dashes, `replace(/(^-|-$)+/g, "")`. -/
def trimDashes (s : List Char) : List Char :=
  ((s.dropWhile (fun c => c = '-')).reverse.dropWhile (fun c => c = '-')).reverse

/-- The id slug `slugify(s)`: lowercase, NFKD-normalize, strip combining marks,
collapse non-alphanumeric runs to dashes, trim edge dashes. The NFKD
normalization is the identity on the ASCII data the program handles and
is modelled as such. -/
def slugify (s : String) : String :=
  ⟨trimDashes (collapseNonSlug false (stripCombining (jsToLower s).data))⟩

/-- The add-tile form fields of `ManageTilesModal`. -/
structure AddForm where
  title : String
  subtitle : String
  url : String
  icon : String
  color : String
  tags : String
deriving DecidableEq, Repr

/-- The tile literal built by `addTile`; `suffix` stands for the random
base-36 draw `Math.random().toString(36).slice(2, 6)`. An empty (falsy)
title, subtitle or url triggers the respective default. -/
def makeTile (f : AddForm) (suffix : String) : Tile :=
  { id := slugify (if f.title = "" then "tile-" else f.title) ++ "-" ++ suffix,
    title := if f.title = "" then "Untitled" else f.title,
    subtitle := if f.subtitle = "" then none else some f.subtitle,
    url := if f.url = "" then "https://example.com" else f.url,
    icon := f.icon,
    color := f.color,
    tags := some (((jsSplitComma f.tags).map jsTrim).filter (fun x => x ≠ "")) }

/-- The add operation `addTile` prepends the new tile: `setLocal((prev) => [t, ...prev])`. -/
def addTile (prev : List Tile) (f : AddForm) (suffix : String) : List Tile :=
  makeTile f suffix :: prev

/-- The two assignments of `[next[i], next[j]] = [next[j], next[i]]`,
evaluated against the original list. -/
def swapAt (l : List Tile) (i j : Nat) : List Tile :=
  match l[i]?, l[j]? with
  | some a, some b => (l.set i b).set j a
  | _, _ => l

/-- The reorder operation `move(i, dir)` of `ManageTilesModal`: no-op when the target index
`j = i + dir` falls outside the list, otherwise swap positions `i` and
`j`. The UI only invokes it with `i` an index of the rendered list. -/
def move (prev : List Tile) (i : Nat) (dir : Int) : List Tile :=
  if (i : Int) + dir < 0 ∨ (prev.length : Int) ≤ (i : Int) + dir then prev
  else swapAt prev i ((i : Int) + dir).toNat

/-- The `onSave` of `EditTileModal`:
`prev.map((t) => (t.id === updated.id ? updated : t))`. -/
def saveEditTiles (prev : List Tile) (updated : Tile) : List Tile :=
  prev.map (fun t => if t.id = updated.id then updated else t)

/-- A concrete filled-in add-tile form with empty title and URL and a
messy tags input, used as witness data. -/
def sampleForm : AddForm :=
  { title := "", subtitle := "", url := "", icon := "ListTodo",
    color := "from-sky-500 to-cyan-500", tags := " work, ,planning " }

/-- The `DEFAULT_TILES` constant of the source, used as concrete data in
witnesses. -/
def DEFAULT_TILES : List Tile :=
  [{ id := "calendar", title := "Calendar App",
     subtitle := some "Plan & collaborate",
     url := "https://richardsipos.github.io/Calendar-App/",
     icon := "CalendarClock", color := "from-indigo-500 to-blue-500",
     tags := some ["work", "planning"] },
   { id := "dashboard", title := "Daily Dashboard",
     subtitle := some "Track your day",
     url := "https://example.com/dashboard",
     icon := "Gauge", color := "from-emerald-500 to-teal-500",
     tags := some ["habits", "health"] },
   { id := "todo", title := "Todo HQ",
     subtitle := some "Capture & do",
     url := "https://richardsipos.github.io/Tick-And-Top",
     icon := "CheckSquare", color := "from-amber-500 to-orange-500",
     tags := some ["tasks"] }]

/-- C5: the theme-toggle step is exactly the four-state cycle
light → dark → grafit → surprise → light, and every theme state is one
of the four named states. -/
theorem nextTheme_cycle :
    nextTheme .light = .dark ∧ nextTheme .dark = .grafit ∧
    nextTheme .grafit = .surprise ∧ nextTheme .surprise = .light ∧
    (∀ t : ThemeName,
      t = .light ∨ t = .dark ∨ t = .grafit ∨ t = .surprise) := by
  refine ⟨rfl, rfl, rfl, rfl, ?_⟩
  intro t
  cases t <;> simp

/-- C10: adding a tile prepends the newly created tile: the head of the
result is the new tile, the tail is the previous collection unchanged,
and the length grows by one. -/
theorem addTile_prepends (prev : List Tile) (f : AddForm) (suffix : String) :
    (addTile prev f suffix).head? = some (makeTile f suffix) ∧
    (addTile prev f suffix).tail = prev ∧
    (addTile prev f suffix).length = prev.length + 1 :=
  ⟨rfl, rfl, rfl⟩

/-- C9: saving an edited tile keeps the length and relative order of the
collection and, position by position, replaces exactly the tiles whose
id equals the edited tile's id, leaving every other tile unchanged. -/
theorem saveEditTiles_spec (prev : List Tile) (u : Tile) :
    (saveEditTiles prev u).length = prev.length ∧
    (∀ (k : Nat) (t : Tile), prev[k]? = some t →
      (saveEditTiles prev u)[k]? =
        some (if t.id = u.id then u else t)) := by
  constructor
  · simp [saveEditTiles]
  · intro k t h
    simp [saveEditTiles, List.getElem?_map, h]

/-- Witness for C9 on concrete data: editing the dashboard tile of
`DEFAULT_TILES` replaces position 1 and leaves position 0 unchanged. -/
theorem saveEditTiles_spec_witness :
    (saveEditTiles DEFAULT_TILES
      { id := "dashboard", title := "New Dash", subtitle := none,
        url := "https://example.com", icon := "Gauge", color := "c",
        tags := none })[1]? =
      some { id := "dashboard", title := "New Dash", subtitle := none,
             url := "https://example.com", icon := "Gauge", color := "c",
             tags := none } ∧
    (saveEditTiles DEFAULT_TILES
      { id := "dashboard", title := "New Dash", subtitle := none,
        url := "https://example.com", icon := "Gauge", color := "c",
        tags := none })[0]? = DEFAULT_TILES[0]? := by
  have h1 := (saveEditTiles_spec DEFAULT_TILES
    { id := "dashboard", title := "New Dash", subtitle := none,
      url := "https://example.com", icon := "Gauge", color := "c",
      tags := none }).2 1 (DEFAULT_TILES.get ⟨1, by decide⟩) (by decide)
  have h0 := (saveEditTiles_spec DEFAULT_TILES
    { id := "dashboard", title := "New Dash", subtitle := none,
      url := "https://example.com", icon := "Gauge", color := "c",
      tags := none }).2 0 (DEFAULT_TILES.get ⟨0, by decide⟩) (by decide)
  refine ⟨?_, ?_⟩
  · rw [h1]; decide
  · rw [h0]; decide

/-- C2: the persistent-state initializer returns the parsed stored value
when the slot holds data that deserializes, and the initial value when
the slot is absent or deserialization fails. -/
theorem usePersistentStateInit_spec {α : Type} (store : String → Option String)
    (key : String) (initial : α) (parse : String → Option α) :
    (store key = none →
      usePersistentStateInit store key initial parse = initial) ∧
    (∀ raw, store key = some raw → parse raw = none →
      usePersistentStateInit store key initial parse = initial) ∧
    (∀ raw v, store key = some raw → parse raw = some v → parse "" = none →
      usePersistentStateInit store key initial parse = v) := by
  refine ⟨?_, ?_, ?_⟩
  · intro h
    simp [usePersistentStateInit, h]
  · intro raw h hp
    by_cases hr : raw = "" <;> simp [usePersistentStateInit, h, hp, hr]
  · intro raw v h hp hempty
    have hr : raw ≠ "" := by
      intro he
      rw [he, hempty] at hp
      cases hp
    simp [usePersistentStateInit, h, hp, hr]

/-- Witness for C2, with a concrete parser accepting only `"42"`: a
corrupt slot value yields the default without an error, and an absent
slot yields the default. -/
theorem usePersistentStateInit_spec_witness :
    (fun s => if s = "42" then some 42 else (none : Option Nat)) "notjson"
      = none ∧
    usePersistentStateInit
      (fun k => if k = "launcher.theme" then some "notjson" else none)
      "launcher.theme" 5
      (fun s => if s = "42" then some 42 else none) = 5 ∧
    usePersistentStateInit (fun _ => none) "launcher.theme" 5
      (fun s => if s = "42" then some 42 else none) = 5 :=
  ⟨by decide,
   (usePersistentStateInit_spec
      (fun k => if k = "launcher.theme" then some "notjson" else none)
      "launcher.theme" 5
      (fun s => if s = "42" then some 42 else none)).2.1
        "notjson" (by decide) (by decide),
   (usePersistentStateInit_spec (fun _ => none) "launcher.theme" 5
      (fun s => if s = "42" then some 42 else none)).1 rfl⟩

/-- C3: round-trip — writing a value through the persistent store and
re-initializing with a different default returns the written value, for
any serializer whose parse inverts stringify and rejects the empty
string (as JSON does). -/
theorem usePersistentState_roundtrip {α : Type} (store : String → Option String)
    (key : String) (X default : α) (parse : String → Option α)
    (stringify : α → String)
    (hparse : parse (stringify X) = some X) (hempty : parse "" = none) :
    usePersistentStateInit (usePersistentStateWrite store key X stringify)
      key default parse = X := by
  have hr : stringify X ≠ "" := by
    intro he
    rw [he, hempty] at hparse
    cases hparse
  simp [usePersistentStateInit, usePersistentStateWrite, hr, hparse]

/-- Dropping empty strings from a candidate list (the `filter(Boolean)`
step) does not change `any` for a predicate that is false on the empty
string. -/
theorem any_filter_ne_empty (l : List String) (f : String → Bool)
    (hf : f "" = false) :
    ((l.filter (fun s => s ≠ "")).any f) = l.any f := by
  induction l with
  | nil => rfl
  | cons a l ih =>
    by_cases ha : a = ""
    · subst ha
      rw [List.filter_cons_of_neg (by simp), List.any_cons, hf,
        Bool.false_or, ih]
    · rw [List.filter_cons_of_pos (by simp [ha]), List.any_cons,
        List.any_cons, ih]

/-- The code-side candidate match of `filtered` agrees with the
specification-side title/subtitle/tag match for a non-empty query. -/
theorem tileMatches_eq_specMatches (query : String) (t : Tile)
    (hq : query ≠ "") :
    tileMatches (jsToLower query) t = specMatches query t := by
  have hqd : query.data ≠ [] := fun h => hq (String.ext h)
  have hf : jsIncludes (jsToLower "") (jsToLower query) = false := by
    show ((jsToLower query).data).isEmpty = false
    simp [jsToLower, List.isEmpty_iff, hqd]
  obtain ⟨tid, ttitle, tsub, turl, ticon, tcolor, ttags⟩ := t
  simp only [tileMatches, tileStrings]
  rw [any_filter_ne_empty _ _ hf]
  cases tsub <;>
    simp [specMatches, List.any_append, Bool.or_assoc]

/-- Swapping preserves the length of the list. -/
theorem swapAt_length (l : List Tile) (i j : Nat) :
    (swapAt l i j).length = l.length := by
  unfold swapAt
  cases hi : l[i]? <;> cases hj : l[j]? <;> simp

/-- Element-wise description of `swapAt` when both indices are valid:
positions `i` and `j` exchange their contents and every other position
is untouched. -/
theorem swapAt_getElem? (l : List Tile) (i j : Nat)
    (hi : i < l.length) (hj : j < l.length) :
    (swapAt l i j)[i]? = l[j]? ∧ (swapAt l i j)[j]? = l[i]? ∧
    (∀ k : Nat, k ≠ i → k ≠ j → (swapAt l i j)[k]? = l[k]?) := by
  have ha : l[i]? = some l[i] := List.getElem?_eq_getElem hi
  have hb : l[j]? = some l[j] := List.getElem?_eq_getElem hj
  simp only [swapAt, ha, hb]
  by_cases hij : i = j
  · subst hij
    refine ⟨?_, ?_, ?_⟩
    · rw [List.getElem?_set_self (by simpa using hi)]
    · rw [List.getElem?_set_self (by simpa using hi)]
    · intro k hk _
      rw [List.getElem?_set_ne (Ne.symm hk), List.getElem?_set_ne (Ne.symm hk)]
  · refine ⟨?_, ?_, ?_⟩
    · rw [List.getElem?_set_ne (fun h => hij h.symm),
        List.getElem?_set_self (by simpa using hi)]
    · rw [List.getElem?_set_self (by simpa using hj)]
    · intro k hki hkj
      rw [List.getElem?_set_ne (Ne.symm hkj), List.getElem?_set_ne (Ne.symm hki)]

/-- C7: when the target index `i + dir` is valid, `move` swaps positions
`i` and `i + dir` and leaves every other position unchanged (the length
is preserved); when `i + dir` is out of bounds, `move` returns the
collection unchanged. -/
theorem move_spec (l : List Tile) (i : Nat) (dir : Int)
    (hi : i < l.length) :
    ((0 ≤ (i : Int) + dir ∧ (i : Int) + dir < (l.length : Int)) →
      (move l i dir).length = l.length ∧
      (move l i dir)[i]? = l[((i : Int) + dir).toNat]? ∧
      (move l i dir)[((i : Int) + dir).toNat]? = l[i]? ∧
      (∀ k : Nat, k ≠ i → k ≠ ((i : Int) + dir).toNat →
        (move l i dir)[k]? = l[k]?)) ∧
    (((i : Int) + dir < 0 ∨ (l.length : Int) ≤ (i : Int) + dir) →
      move l i dir = l) := by
  constructor
  · rintro ⟨hj0, hj1⟩
    have hcond : ¬ ((i : Int) + dir < 0 ∨ (l.length : Int) ≤ (i : Int) + dir) := by
      omega
    have hmv : move l i dir = swapAt l i ((i : Int) + dir).toNat := by
      rw [move, if_neg hcond]
    have hjlt : ((i : Int) + dir).toNat < l.length := by omega
    have h := swapAt_getElem? l i (((i : Int) + dir).toNat) hi hjlt
    rw [hmv]
    exact ⟨swapAt_length l i _, h.1, h.2.1, h.2.2⟩
  · intro h
    rw [move, if_pos h]

/-- Witness for C7 on the three default tiles: moving the first tile
down swaps it with the second and leaves the third in place; moving the
last tile down is a no-op. -/
theorem move_spec_witness :
    (move DEFAULT_TILES 0 1)[0]? = DEFAULT_TILES[1]? ∧
    (move DEFAULT_TILES 0 1)[1]? = DEFAULT_TILES[0]? ∧
    (move DEFAULT_TILES 0 1)[2]? = DEFAULT_TILES[2]? ∧
    move DEFAULT_TILES 2 1 = DEFAULT_TILES := by
  have h1 := (move_spec DEFAULT_TILES 0 1 (by decide)).1 (by decide)
  have h2 := (move_spec DEFAULT_TILES 2 1 (by decide)).2 (by decide)
  refine ⟨?_, ?_, ?_, h2⟩
  · simpa using h1.2.1
  · simpa using h1.2.2.1
  · simpa using h1.2.2.2 2 (by decide) (by decide)

/-- Every surprise palette name maps to a palette of the fixed set. -/
theorem surprisePalettes_isSome :
    ∀ name ∈ surpriseNames, (SURPRISE_PALETTES name).isSome := by decide

/-- C1: when the sticky durable sub-record `launcher.surpriseName` names
a palette of the fixed set, resolving `surprise` reuses exactly that
palette — so repeated resolutions without clearing the sub-record yield
the same tokens — and when the sub-record is absent or names an unknown
palette, the applied palette belongs to the fixed set and its name is
written to the sub-record. -/
theorem applyTheme_surprise_spec (store : String → Option String)
    (r r' : Nat) :
    (∀ name p, store surpriseKey = some name →
      SURPRISE_PALETTES name = some p →
      (applyTheme store .surprise r).1 = some p ∧
      (applyTheme store .surprise r).2 surpriseKey = some name ∧
      (applyTheme ((applyTheme store .surprise r).2) .surprise r').1 =
        some p) ∧
    ((store surpriseKey = none ∨
        (∃ name, store surpriseKey = some name ∧
          SURPRISE_PALETTES name = none)) →
      (∃ name p, name ∈ surpriseNames ∧ SURPRISE_PALETTES name = some p ∧
        (applyTheme store .surprise r).1 = some p ∧
        (applyTheme store .surprise r).2 surpriseKey = some name)) := by
  constructor
  · intro name p hst hpal
    have hsome : (SURPRISE_PALETTES name).isSome := by rw [hpal]; rfl
    have key : ∀ (st : String → Option String) (rr : Nat),
        st surpriseKey = some name →
        (applyTheme st .surprise rr).1 = some p := by
      intro st rr hstk
      simp [applyTheme, hstk, hsome, hpal]
    have h2 : (applyTheme store .surprise r).2 surpriseKey = some name := by
      simp [applyTheme, hst, hsome]
    exact ⟨key store r hst, h2, key _ r' h2⟩
  · intro hmiss
    have hlt : r % surpriseNames.length < surpriseNames.length :=
      Nat.mod_lt _ (by decide)
    have hmem : surpriseNames[r % surpriseNames.length] ∈ surpriseNames :=
      List.getElem_mem hlt
    have hsome := surprisePalettes_isSome _ hmem
    obtain ⟨p, hp⟩ := Option.isSome_iff_exists.1 hsome
    refine ⟨surpriseNames[r % surpriseNames.length], p, hmem, hp, ?_, ?_⟩
    · rcases hmiss with h | ⟨name, hst, hnone⟩
      · simp [applyTheme, h, hp]
      · simp [applyTheme, hst, hnone, hp]
    · rcases hmiss with h | ⟨name, hst, hnone⟩
      · simp [applyTheme, h]
      · simp [applyTheme, hst, hnone]

/-- Witness for C1: a store stickied to `forest` resolves to the forest
palette twice in a row regardless of the random draws, and an empty
store resolves to some palette of the fixed set and writes its name. -/
theorem applyTheme_surprise_spec_witness :
    (applyTheme (fun k => if k = surpriseKey then some "forest" else none)
      .surprise 0).1 = some forestTokens ∧
    (applyTheme ((applyTheme
      (fun k => if k = surpriseKey then some "forest" else none)
      .surprise 0).2) .surprise 1).1 = some forestTokens ∧
    (∃ name p, name ∈ surpriseNames ∧ SURPRISE_PALETTES name = some p ∧
      (applyTheme (fun _ => none) .surprise 2).1 = some p ∧
      (applyTheme (fun _ => none) .surprise 2).2 surpriseKey = some name) :=
  ⟨((applyTheme_surprise_spec
      (fun k => if k = surpriseKey then some "forest" else none) 0 1).1
      "forest" forestTokens (by decide) (by decide)).1,
   ((applyTheme_surprise_spec
      (fun k => if k = surpriseKey then some "forest" else none) 0 1).1
      "forest" forestTokens (by decide) (by decide)).2.2,
   (applyTheme_surprise_spec (fun _ => none) 2 0).2 (Or.inl rfl)⟩

/-- C6 as stated fails on the code: a new tile's id is the title slug
plus a random base-36 suffix, and nothing re-draws or checks on
collision, so when two sequential adds of identically-titled tiles draw
the same suffix the generated ids coincide and pairwise distinctness is
lost. -/
theorem addTile_id_unique_counterexample :
    (([] : List Tile).map Tile.id).Nodup ∧
    ((addTile [] sampleForm "aaaa").map Tile.id).Nodup ∧
    ¬ (((addTile (addTile [] sampleForm "aaaa") sampleForm "aaaa").map
        Tile.id).Nodup) := by decide

/-- C6 amended: adding a tile to a collection with pairwise-distinct ids
preserves distinctness provided the generated id does not already occur
in the collection, and two adds with identical titles produce distinct
ids provided their random suffixes differ. -/
theorem addTile_id_unique (prev : List Tile) (f : AddForm) (suffix : String)
    (hnodup : (prev.map Tile.id).Nodup)
    (hfresh : (makeTile f suffix).id ∉ prev.map Tile.id) :
    ((addTile prev f suffix).map Tile.id).Nodup ∧
    (∀ (f' : AddForm) (suffix' : String), f'.title = f.title →
      suffix' ≠ suffix →
      (makeTile f' suffix').id ≠ (makeTile f suffix).id) := by
  constructor
  · rw [addTile, List.map_cons, List.nodup_cons]
    exact ⟨hfresh, hnodup⟩
  · intro f' suffix' htitle hsuf heq
    apply hsuf
    have hid : slugify (if f'.title = "" then "tile-" else f'.title)
        ++ "-" ++ suffix' =
        slugify (if f.title = "" then "tile-" else f.title)
        ++ "-" ++ suffix := heq
    rw [htitle] at hid
    have hdata :
        (slugify (if f.title = "" then "tile-" else f.title) ++ "-").data
          ++ suffix'.data =
        (slugify (if f.title = "" then "tile-" else f.title) ++ "-").data
          ++ suffix.data := congrArg String.data hid
    exact String.ext (List.append_cancel_left hdata)

/-- Witness for the amended C6: adding a second identically-titled tile
with a fresh suffix keeps the ids pairwise distinct, and a different
suffix yields a different id. -/
theorem addTile_id_unique_witness :
    ((addTile [makeTile sampleForm "aaaa"] sampleForm "bbbb").map
      Tile.id).Nodup ∧
    (makeTile sampleForm "cccc").id ≠ (makeTile sampleForm "bbbb").id :=
  ⟨(addTile_id_unique [makeTile sampleForm "aaaa"] sampleForm "bbbb"
      (by decide) (by decide)).1,
   (addTile_id_unique [makeTile sampleForm "aaaa"] sampleForm "bbbb"
      (by decide) (by decide)).2 sampleForm "cccc" rfl (by decide)⟩

/-- C4: the search filter returns the whole collection for an empty or
whitespace-only query; otherwise it returns the order-preserving
subsequence of exactly those tiles whose title, subtitle, or some tag
contains the query as a case-insensitive substring, and it is empty
when no tile matches. The operation is a pure function of its inputs. -/
theorem filtered_spec (tiles : List Tile) (query : String) :
    (jsTrim query = "" → filtered tiles query = tiles) ∧
    (jsTrim query ≠ "" →
      filtered tiles query = tiles.filter (specMatches query)) ∧
    (jsTrim query ≠ "" → (∀ t ∈ tiles, specMatches query t = false) →
      filtered tiles query = []) := by
  have hne : jsTrim query ≠ "" → query ≠ "" := by
    intro h he
    subst he
    exact h (by decide)
  have hmain : jsTrim query ≠ "" →
      filtered tiles query = tiles.filter (specMatches query) := by
    intro h
    rw [filtered, if_neg h]
    exact List.filter_congr fun t _ => tileMatches_eq_specMatches query t (hne h)
  refine ⟨?_, hmain, ?_⟩
  · intro h
    rw [filtered, if_pos h]
  · intro h hnone
    rw [hmain h, List.filter_eq_nil_iff]
    intro t ht
    simp [hnone t ht]

/-- Witness for C4 on the default tiles: the empty query returns the
collection unchanged; the query `WORK` reduces to the tag filter; the
query `zzz-no-match` yields the empty list. -/
theorem filtered_spec_witness :
    filtered DEFAULT_TILES "" = DEFAULT_TILES ∧
    filtered DEFAULT_TILES "WORK" =
      DEFAULT_TILES.filter (specMatches "WORK") ∧
    filtered DEFAULT_TILES "zzz-no-match" = [] :=
  ⟨(filtered_spec DEFAULT_TILES "").1 (by decide),
   (filtered_spec DEFAULT_TILES "WORK").2.1 (by decide),
   (filtered_spec DEFAULT_TILES "zzz-no-match").2.2 (by decide) (by decide)⟩

/-- C8: a created tile takes the placeholder title and URL exactly when
the respective input is empty, takes non-empty inputs verbatim, and its
tags are the comma-separated labels of the tags input, trimmed, with
empty labels dropped. -/
theorem makeTile_defaults (f : AddForm) (suffix : String) :
    (f.title = "" → (makeTile f suffix).title = "Untitled") ∧
    (f.title ≠ "" → (makeTile f suffix).title = f.title) ∧
    (f.url = "" → (makeTile f suffix).url = "https://example.com") ∧
    (f.url ≠ "" → (makeTile f suffix).url = f.url) ∧
    ((makeTile f suffix).tags =
      some (((jsSplitComma f.tags).map jsTrim).filter (fun x => x ≠ ""))) ∧
    (∀ x, x ∈ (makeTile f suffix).tags.getD [] ↔
      (x ≠ "" ∧ ∃ seg ∈ jsSplitComma f.tags, jsTrim seg = x)) := by
  refine ⟨?_, ?_, ?_, ?_, rfl, ?_⟩
  · intro h; simp [makeTile, h]
  · intro h; simp [makeTile, h]
  · intro h; simp [makeTile, h]
  · intro h; simp [makeTile, h]
  · intro x
    simp only [makeTile, Option.getD_some, List.mem_filter, List.mem_map]
    constructor
    · rintro ⟨⟨seg, hseg, hx⟩, hne⟩
      exact ⟨by simpa using hne, seg, hseg, hx⟩
    · rintro ⟨hne, seg, hseg, hx⟩
      exact ⟨⟨seg, hseg, hx⟩, by simpa using hne⟩

/-- Witness for C8: empty title and URL inputs give the placeholders,
and the tags input `" work, ,planning "` yields exactly the labels
`work` and `planning`. -/
theorem makeTile_defaults_witness :
    (makeTile sampleForm "ab12").title = "Untitled" ∧
    (makeTile sampleForm "ab12").url = "https://example.com" ∧
    "work" ∈ (makeTile sampleForm "ab12").tags.getD [] :=
  ⟨(makeTile_defaults sampleForm "ab12").1 rfl,
   (makeTile_defaults sampleForm "ab12").2.2.1 rfl,
   ((makeTile_defaults sampleForm "ab12").2.2.2.2.2 "work").2
     ⟨by decide, " work", by decide, by decide⟩⟩

/-- Witness for C3 with a concrete serializer writing `42` as `"42"`:
42 written under `launcher.tiles` survives a fresh initialize with
default 0. -/
theorem usePersistentState_roundtrip_witness :
    (fun s => if s = "42" then some 42 else (none : Option Nat))
      ((fun _ : Nat => "42") 42) = some 42 ∧
    (fun s => if s = "42" then some 42 else (none : Option Nat)) "" = none ∧
    usePersistentStateInit
      (usePersistentStateWrite (fun _ => none) "launcher.tiles" 42
        (fun _ : Nat => "42"))
      "launcher.tiles" 0 (fun s => if s = "42" then some 42 else none) = 42 :=
  ⟨by decide, by decide,
   usePersistentState_roundtrip (fun _ => none) "launcher.tiles" 42 0
     (fun s => if s = "42" then some 42 else none) (fun _ : Nat => "42")
     (by decide) (by decide)⟩
